import Mathlib

/-!
Verification of the meal-interpretation pipeline of `src/main.py`
(app-nutri backend): the Phrase Interpreter (`extrair_alimentos_da_frase`),
the Nutrient Resolver (`buscar_dados_nutricionais`), the Meal Aggregator
(`registrar_refeicao`) and the Daily Summary Calculator (`get_resumo_do_dia`).

Numbers are modelled as rationals; Python's `round(x, 2)` is modelled by
`round2` below, round-to-nearest at 2 decimal places.  Exact halfway ties
are rounded half-up by the model while Python rounds them half-to-even;
every concrete value evaluated in this file is at least 0.004 away from a
halfway boundary, so the two conventions agree on all of them and no
statement proved here depends on the tie direction.  External effects (the Gemini
call, the USDA lookup, the database) are modelled by passing the outcome of
the external call as an explicit argument, so every function is a pure
function of its inputs exactly as the Python body is a pure function of the
values those calls return.
-/

namespace AppNutri

/-- Rounding to two decimal places, modelling Python's `round(x, 2)` away
from exact ties (Mathlib's `round` takes halfway cases up, Python takes
them to the even digit; no statement below is evaluated at a halfway
case). -/
def round2 (x : ℚ) : ℚ := (round (x * 100)) / 100

/-- One element of the JSON array returned by the Gemini call, as consumed by
the pipeline: `keys` is the set of keys present in the JSON object, and the
three value fields model `item.get('alimento')`, `item.get('quantidade')`,
`item.get('unidade')` (meaningful when the corresponding key is present).
Python dict-`get` truthiness of a field is: the key is present and the value
is non-falsy (non-empty string, non-zero number). -/
structure Item where
  keys : List String
  alimento : String
  quantidade : ℚ
  unidade : String
deriving DecidableEq, Repr

/-- One entry of `foodNutrients` in a USDA food record: `nutrientName`,
`unitName` and `value` (the code defaults a missing `value` to 0, so the
field is total here). -/
structure Nutrient where
  nutrientName : String
  unitName : String
  value : ℚ
deriving DecidableEq, Repr

/-- One USDA food record: the code uses only `foodNutrients` (and logs the
description). -/
structure FoodRecord where
  description : String
  foodNutrients : List Nutrient
deriving DecidableEq, Repr

/-- The dict `valores_base_100g` (and the scaled dict returned by the
resolver): each of the four macro keys is either absent (`none`) or present
with a value.  `Calorias (Kcal)`, `Proteinas (g)`, `Gorduras (g)`,
`Carboidratos (g)` become the four fields. -/
structure Nutrientes where
  calorias : Option ℚ
  proteinas : Option ℚ
  gorduras : Option ℚ
  carboidratos : Option ℚ
deriving DecidableEq, Repr

/-- The empty dict `{}`. -/
def Nutrientes.vazio : Nutrientes := ⟨none, none, none, none⟩

/-- Python truthiness of the dict: non-empty. -/
def Nutrientes.truthy (n : Nutrientes) : Bool :=
  n.calorias.isSome || n.proteinas.isSome || n.gorduras.isSome || n.carboidratos.isSome

/-- Python's `str.upper()` applied to a unit string, modelled as
character-wise ASCII uppercasing (the unit strings compared by the code,
such as `G`, `KCAL`, `MG`, `IU`, are ASCII). -/
def upperStr (s : String) : String := ⟨s.data.map Char.toUpper⟩

/-- One iteration of the `for nut in primeiro_alimento.get('foodNutrients', [])`
loop of `buscar_dados_nutricionais` (src/main.py lines 168-173): an
`if/elif` chain matching on nutrient name AND upper-cased unit; a later
matching entry overwrites an earlier one; a non-matching entry is ignored. -/
def addNutrient (acc : Nutrientes) (nut : Nutrient) : Nutrientes :=
  if nut.nutrientName = "Energy" ∧ upperStr nut.unitName = "KCAL" then
    { acc with calorias := some nut.value }
  else if nut.nutrientName = "Protein" ∧ upperStr nut.unitName = "G" then
    { acc with proteinas := some nut.value }
  else if nut.nutrientName = "Total lipid (fat)" ∧ upperStr nut.unitName = "G" then
    { acc with gorduras := some nut.value }
  else if nut.nutrientName = "Carbohydrate, by difference" ∧ upperStr nut.unitName = "G" then
    { acc with carboidratos := some nut.value }
  else acc

/-- The dict `valores_base_100g` built by the extraction loop. -/
def valores_base_100g (nuts : List Nutrient) : Nutrientes :=
  nuts.foldl addNutrient Nutrientes.vazio

/-- The dict comprehension
`{k: round(v * fator, 2) for k, v in valores_base_100g.items()}`:
every present value is scaled and rounded; absent keys stay absent. -/
def Nutrientes.escala (n : Nutrientes) (fator : ℚ) : Nutrientes :=
  ⟨n.calorias.map (fun v => round2 (v * fator)),
   n.proteinas.map (fun v => round2 (v * fator)),
   n.gorduras.map (fun v => round2 (v * fator)),
   n.carboidratos.map (fun v => round2 (v * fator))⟩

/-- The guard `if not all([alimento_nome, quantidade, unidade]): return None`
of `buscar_dados_nutricionais`: every field present (dict `get` non-`None`)
and non-falsy. -/
def Item.campos_validos (item : Item) : Prop :=
  "alimento" ∈ item.keys ∧ item.alimento ≠ "" ∧
  "quantidade" ∈ item.keys ∧ item.quantidade ≠ 0 ∧
  "unidade" ∈ item.keys ∧ item.unidade ≠ ""

instance (item : Item) : Decidable item.campos_validos := by
  unfold Item.campos_validos; infer_instance

/-- `buscar_dados_nutricionais` (src/main.py lines 154-192).  `resp` is the
outcome of the USDA lookup: `none` models a request exception (network
error, timeout, non-2xx — the code swallows it and returns `None`), and
`some foods` models a 2xx response whose decoded `data['foods']` list is
`foods`.  With an empty `foods` list the code returns `None`; otherwise it
extracts the base-100g values from the FIRST record, scales them when
`unidade == 'grama'` (rejecting `quantidade <= 0`), and falls back to the
unscaled base values for any other unit. -/
def buscar_dados_nutricionais (item : Item) (resp : Option (List FoodRecord)) :
    Option Nutrientes :=
  if ¬ item.campos_validos then none
  else
    match resp with
    | none => none
    | some [] => none
    | some (primeiro :: _) =>
      let base := valores_base_100g primeiro.foodNutrients
      if item.unidade = "grama" then
        if item.quantidade ≤ 0 then none
        else some (base.escala (item.quantidade / 100))
      else some base

/-- The decoded JSON payload of the Gemini response text: either an array
of objects or any non-array value.  (A non-object array element makes the
key-membership test raise, which the surrounding `except` turns into the
same `None` as a failed shape check, so objects are the only elements that
need distinguishing.) -/
inductive Json where
  | arr : List Item → Json
  | notArr : Json
deriving DecidableEq, Repr

/-- Outcome of the Gemini call as seen by `extrair_alimentos_da_frase`:
the call itself raised (`callError`), the response text was not valid JSON
(`parseError`, the `json.JSONDecodeError` branch), or it decoded to a JSON
value (`payload`). -/
inductive GeminiResult where
  | callError : GeminiResult
  | parseError : GeminiResult
  | payload : Json → GeminiResult
deriving DecidableEq, Repr

/-- The validation loop of `extrair_alimentos_da_frase` (lines 142-145):
`for item in alimentos: if not all(key in item for key in [...]): return None`.
Returns `false` as soon as one element misses one of the three keys. -/
def valida_itens : List Item → Bool
  | [] => true
  | item :: resto =>
    if "alimento" ∈ item.keys ∧ "quantidade" ∈ item.keys ∧ "unidade" ∈ item.keys then
      valida_itens resto
    else false

/-- `extrair_alimentos_da_frase` (src/main.py lines 132-152): empty phrase
short-circuits to `None` before the Gemini call; a call exception, a JSON
decode error, and a non-array payload each return `None`; an array payload
is returned whole when every element has the three keys, else `None`. -/
def extrair_alimentos_da_frase (frase : String) (resultado : GeminiResult) :
    Option (List Item) :=
  if frase = "" then none
  else
    match resultado with
    | .callError => none
    | .parseError => none
    | .payload .notArr => none
    | .payload (.arr alimentos) =>
      if valida_itens alimentos then some alimentos else none

/-- The response body of a successful `/registrar-refeicao/` call: the four
rounded totals persisted in the `RefeicaoRegistrada` row and echoed back. -/
structure RefeicaoOutput where
  total_calorias : ℚ
  total_proteinas : ℚ
  total_gorduras : ℚ
  total_carboidratos : ℚ
deriving DecidableEq, Repr

deriving instance DecidableEq for Except

/-- The accumulator of the aggregation loop of `registrar_refeicao`:
`itens_processados` and the four running sums. -/
structure Totais where
  itens_processados : ℕ
  cal : ℚ
  prot : ℚ
  gord : ℚ
  carb : ℚ
deriving DecidableEq, Repr

/-- The initial accumulator (`0, 0, 0, 0, 0`). -/
def Totais.zero : Totais := ⟨0, 0, 0, 0, 0⟩

/-- One iteration of the `for item in dados_alimentos` loop (lines 381-388):
`if nutrientes:` is Python truthiness, so a `None` result AND an empty dict
both leave the accumulator unchanged; a non-empty dict increments
`itens_processados` and adds the four `get(..., 0)` values. -/
def passo_item (resolver : Item → Option Nutrientes) (acc : Totais) (item : Item) : Totais :=
  match resolver item with
  | none => acc
  | some n =>
    if n.truthy then
      ⟨acc.itens_processados + 1,
       acc.cal + n.calorias.getD 0,
       acc.prot + n.proteinas.getD 0,
       acc.gord + n.gorduras.getD 0,
       acc.carb + n.carboidratos.getD 0⟩
    else acc

/-- `registrar_refeicao` (src/main.py lines 363-420), with the persistence
step assumed to succeed (the DB is external).  `resolver` is the per-item
Nutrient Resolver (in the program, `fun item => buscar_dados_nutricionais
item resp` for that item's USDA response).  Errors carry the HTTP status:
400 when `not dados_alimentos` (extraction returned `None` OR an empty
list), 404 when `itens_processados == 0`. -/
def registrar_refeicao (frase : String) (resultado : GeminiResult)
    (resolver : Item → Option Nutrientes) : Except Nat RefeicaoOutput :=
  match extrair_alimentos_da_frase frase resultado with
  | none => .error 400
  | some dados =>
    if dados = [] then .error 400
    else
      let acc := dados.foldl (passo_item resolver) Totais.zero
      if acc.itens_processados = 0 then .error 404
      else .ok ⟨round2 acc.cal, round2 acc.prot, round2 acc.gord, round2 acc.carb⟩

/-- One persisted `RefeicaoRegistrada` row as read by the summary: its UTC
timestamp (seconds) and the four stored totals. -/
structure Refeicao where
  data : ℤ
  total_calorias : ℚ
  total_proteinas : ℚ
  total_gorduras : ℚ
  total_carboidratos : ℚ
deriving DecidableEq, Repr

/-- The rows selected by the summary query: `data >= inicio_do_dia` and
`data < inicio_do_dia + 1 day` (86400 seconds). -/
def refeicoes_do_dia (refs : List Refeicao) (inicio : ℤ) : List Refeicao :=
  refs.filter (fun r => decide (inicio ≤ r.data ∧ r.data < inicio + 86400))

/-- SQL `SUM` over the selected rows: `NULL` (here `none`) when no row is
selected; the code then applies `or 0`. -/
def soma_sql (l : List ℚ) : Option ℚ := if l = [] then none else some l.sum

/-- The `/resumo-do-dia/` response body. -/
structure ResumoDiaOutput where
  meta_calorias : ℚ
  total_calorias : ℚ
  total_proteinas : ℚ
  total_gorduras : ℚ
  total_carboidratos : ℚ
  calorias_restantes : ℚ
deriving DecidableEq, Repr

/-- `get_resumo_do_dia` (src/main.py lines 423-467): aggregate the four
sums over the user's rows in `[inicio_do_dia, inicio_do_dia + 24h)`, map a
`NULL` sum to 0, compute `calorias_restantes = meta_calorias - total_cal`
(on the unrounded total), and return the four totals and the remainder
rounded to 2 decimals; `meta_calorias` is echoed unrounded. -/
def get_resumo_do_dia (meta_calorias : ℚ) (refs : List Refeicao) (inicio_do_dia : ℤ) :
    ResumoDiaOutput :=
  let do_dia := refeicoes_do_dia refs inicio_do_dia
  let total_cal := (soma_sql (do_dia.map Refeicao.total_calorias)).getD 0
  let total_prot := (soma_sql (do_dia.map Refeicao.total_proteinas)).getD 0
  let total_gord := (soma_sql (do_dia.map Refeicao.total_gorduras)).getD 0
  let total_carb := (soma_sql (do_dia.map Refeicao.total_carboidratos)).getD 0
  let calorias_restantes := meta_calorias - total_cal
  ⟨meta_calorias, round2 total_cal, round2 total_prot, round2 total_gord,
   round2 total_carb, round2 calorias_restantes⟩

/-! ## Helper lemmas and concrete data -/

/-- A nutrient entry whose name matches one of the four macro rules but whose
upper-cased unit is not the expected one (`KCAL` for Energy, `G` for the
other three). -/
def unidade_errada (nut : Nutrient) : Prop :=
  (nut.nutrientName = "Energy" ∧ upperStr nut.unitName ≠ "KCAL") ∨
  (nut.nutrientName = "Protein" ∧ upperStr nut.unitName ≠ "G") ∨
  (nut.nutrientName = "Total lipid (fat)" ∧ upperStr nut.unitName ≠ "G") ∨
  (nut.nutrientName = "Carbohydrate, by difference" ∧ upperStr nut.unitName ≠ "G")

instance (nut : Nutrient) : Decidable (unidade_errada nut) := by
  unfold unidade_errada; infer_instance

theorem addNutrient_unidade_errada (acc : Nutrientes) (nut : Nutrient)
    (h : unidade_errada nut) : addNutrient acc nut = acc := by
  rcases h with ⟨h1, h2⟩ | ⟨h1, h2⟩ | ⟨h1, h2⟩ | ⟨h1, h2⟩ <;>
    simp [addNutrient, h1, h2]

/-! ## Claim theorems -/

/-- C6: a nutrient entry whose name matches one of the four macro rules but
whose unit does not match the expected unit (`KCAL` for Energy, `G` for
Protein / Total lipid (fat) / Carbohydrate, by difference) is silently
dropped from `valores_base_100g`, so that macro contributes 0 to the
resolved vector (it is read back with `.get(key, 0)`) rather than a
unit-converted value. -/
theorem valores_base_ignora_unidade_errada (l1 l2 : List Nutrient) (nut : Nutrient)
    (h : unidade_errada nut) :
    valores_base_100g (l1 ++ nut :: l2) = valores_base_100g (l1 ++ l2) := by
  unfold valores_base_100g
  rw [List.foldl_append, List.foldl_append, List.foldl_cons,
    addNutrient_unidade_errada _ _ h]

/-- Witness for C6 at a concrete input: protein reported in milligrams is
dropped. -/
theorem valores_base_ignora_unidade_errada_witness :
    unidade_errada ⟨"Protein", "MG", 5⟩ ∧
    valores_base_100g [⟨"Energy", "KCAL", 100⟩, ⟨"Protein", "MG", 5⟩] =
      valores_base_100g [⟨"Energy", "KCAL", 100⟩] :=
  ⟨by decide,
   valores_base_ignora_unidade_errada [⟨"Energy", "KCAL", 100⟩] [] ⟨"Protein", "MG", 5⟩
     (by decide)⟩

/-- C7: an extracted item whose unit is not the canonical gram unit (the
literal `grama`) but whose three fields are present and non-falsy, and
whose lookup finds at least one food record, resolves to the unscaled
base-100g values of the first record — a lenient fallback, not `None` and
not an error. -/
theorem buscar_fallback_sem_escala (item : Item) (primeiro : FoodRecord)
    (resto : List FoodRecord) (hcv : item.campos_validos)
    (hu : item.unidade ≠ "grama") :
    buscar_dados_nutricionais item (some (primeiro :: resto)) =
      some (valores_base_100g primeiro.foodNutrients) := by
  rw [buscar_dados_nutricionais, if_neg (not_not_intro hcv)]
  simp [hu]

/-- Witness for C7 at a concrete input: unit `fatia` (slice), quantity 2. -/
theorem buscar_fallback_sem_escala_witness :
    (⟨["alimento", "quantidade", "unidade"], "banana", 2, "fatia"⟩ : Item).campos_validos ∧
    (⟨["alimento", "quantidade", "unidade"], "banana", 2, "fatia"⟩ : Item).unidade ≠ "grama" ∧
    buscar_dados_nutricionais ⟨["alimento", "quantidade", "unidade"], "banana", 2, "fatia"⟩
        (some [⟨"Bananas, raw", [⟨"Energy", "KCAL", 89⟩, ⟨"Protein", "G", 1⟩]⟩]) =
      some ⟨some 89, some 1, none, none⟩ := by
  refine ⟨by decide, by decide, ?_⟩
  rw [buscar_fallback_sem_escala _ _ _ (by decide) (by decide)]
  decide

/-- C10: the empty phrase makes the Phrase Interpreter return `None` before
(and regardless of) any outcome of the external language service, and
`registrar_refeicao` then fails with the HTTP 400 extraction error, so no
meal record is created. -/
theorem frase_vazia_sem_registro (resultado : GeminiResult)
    (resolver : Item → Option Nutrientes) :
    extrair_alimentos_da_frase "" resultado = none ∧
    registrar_refeicao "" resultado resolver = Except.error 400 := by
  have h : extrair_alimentos_da_frase "" resultado = none := by
    simp [extrair_alimentos_da_frase]
  refine ⟨h, ?_⟩
  rw [registrar_refeicao, h]

/-- C2: an extracted item whose unit is the canonical gram unit (the literal
`grama`), with the `alimento` and `quantidade` and `unidade` keys present
and a non-empty food name, resolves against a non-empty lookup result to
the base-100g vector of the first record scaled componentwise by
`round2 (v * quantidade / 100)` when `quantidade > 0`, and to `None` when
`quantidade ≤ 0`. -/
theorem buscar_escala_gramas (item : Item) (primeiro : FoodRecord)
    (resto : List FoodRecord) (hal : "alimento" ∈ item.keys)
    (hne : item.alimento ≠ "") (hqk : "quantidade" ∈ item.keys)
    (huk : "unidade" ∈ item.keys) (hu : item.unidade = "grama") :
    buscar_dados_nutricionais item (some (primeiro :: resto)) =
      if 0 < item.quantidade then
        some ((valores_base_100g primeiro.foodNutrients).escala (item.quantidade / 100))
      else none := by
  by_cases hq0 : item.quantidade = 0
  · have hncv : ¬ item.campos_validos := by
      simp [Item.campos_validos, hq0]
    rw [buscar_dados_nutricionais, if_pos hncv, if_neg (by rw [hq0]; exact lt_irrefl 0)]
  · have hcv : item.campos_validos :=
      ⟨hal, hne, hqk, hq0, huk, by rw [hu]; decide⟩
    rw [buscar_dados_nutricionais, if_neg (not_not_intro hcv)]
    by_cases hq : item.quantidade ≤ 0
    · simp [hu, hq, not_lt_of_le hq]
    · simp [hu, hq, lt_of_not_le hq]

/-- Concrete extracted item used by the C2 witness: 50 grams of rice. -/
def itemArroz : Item := ⟨["alimento", "quantidade", "unidade"], "arroz", 50, "grama"⟩

/-- Concrete USDA record used by the C2 witness: base-100g values
(130 kcal, 3 g protein, 1 g fat, 28 g carbs). -/
def recordArroz : FoodRecord :=
  ⟨"Rice, white",
   [⟨"Energy", "KCAL", 130⟩, ⟨"Protein", "G", 3⟩,
    ⟨"Total lipid (fat)", "G", 1⟩, ⟨"Carbohydrate, by difference", "G", 28⟩]⟩

/-- Witness for C2 at a concrete input: 50 grams of a record with base-100g
values (130 kcal, 3 g, 1 g, 28 g) resolves to (65, 1.5, 0.5, 14). -/
theorem buscar_escala_gramas_witness :
    ("alimento" ∈ itemArroz.keys ∧ itemArroz.alimento ≠ "" ∧
     "quantidade" ∈ itemArroz.keys ∧ "unidade" ∈ itemArroz.keys ∧
     itemArroz.unidade = "grama") ∧
    buscar_dados_nutricionais itemArroz (some [recordArroz]) =
      some ⟨some 65, some (3 / 2), some (1 / 2), some 14⟩ := by
  refine ⟨⟨by decide, by decide, by decide, by decide, by decide⟩, ?_⟩
  rw [buscar_escala_gramas _ _ _ (by decide) (by decide) (by decide) (by decide) (by decide)]
  have hb : valores_base_100g recordArroz.foodNutrients =
      ⟨some 130, some 3, some 1, some 28⟩ := by decide
  have hq : itemArroz.quantidade = 50 := rfl
  rw [hq, if_pos (by norm_num), hb]
  norm_num [Nutrientes.escala, round2, round_eq]

/-- Spec-worded validation predicate, for comparison with the code: the
element "MUST contain exactly the keys `alimento`, `quantidade`, `unidade`"
— the three keys are present and no other key is. -/
def chaves_exatamente (item : Item) : Prop :=
  ("alimento" ∈ item.keys ∧ "quantidade" ∈ item.keys ∧ "unidade" ∈ item.keys) ∧
  ∀ k ∈ item.keys, k = "alimento" ∨ k = "quantidade" ∨ k = "unidade"

instance (item : Item) : Decidable (chaves_exatamente item) := by
  unfold chaves_exatamente; infer_instance

theorem valida_itens_eq_true_iff (itens : List Item) :
    valida_itens itens = true ↔
      ∀ i ∈ itens, "alimento" ∈ i.keys ∧ "quantidade" ∈ i.keys ∧ "unidade" ∈ i.keys := by
  induction itens with
  | nil => simp [valida_itens]
  | cons i resto ih =>
    by_cases h : "alimento" ∈ i.keys ∧ "quantidade" ∈ i.keys ∧ "unidade" ∈ i.keys <;>
      simp [valida_itens, h, ih]

/-- C5 counterexample: an element carrying the three required keys plus an
extra key `observacao` does not contain "exactly" the three keys, yet the
interpreter accepts the payload, so the claimed exact-keys rejection is
false on the code. -/
theorem extrair_aceita_chave_extra :
    extrair_alimentos_da_frase "dois ovos"
        (GeminiResult.payload (Json.arr
          [⟨["alimento", "quantidade", "unidade", "observacao"], "ovo", 60, "grama"⟩])) =
      some [⟨["alimento", "quantidade", "unidade", "observacao"], "ovo", 60, "grama"⟩] ∧
    ¬ chaves_exatamente
        ⟨["alimento", "quantidade", "unidade", "observacao"], "ovo", 60, "grama"⟩ :=
  ⟨by decide, by decide⟩

/-- C5 (amended): for a non-empty phrase, a decoded array payload is accepted
in full exactly when every element contains AT LEAST the keys `alimento`,
`quantidade`, `unidade` (extra keys are tolerated); any element missing one
of the three keys invalidates the entire response (fail-fast), and a
non-array payload is rejected. -/
theorem extrair_validacao (frase : String) (itens : List Item) (hf : frase ≠ "") :
    (extrair_alimentos_da_frase frase (GeminiResult.payload (Json.arr itens)) =
      if ∀ i ∈ itens, "alimento" ∈ i.keys ∧ "quantidade" ∈ i.keys ∧ "unidade" ∈ i.keys
      then some itens else none) ∧
    extrair_alimentos_da_frase frase (GeminiResult.payload Json.notArr) = none := by
  constructor
  · rw [extrair_alimentos_da_frase, if_neg hf]
    show (if valida_itens itens then some itens else none) = _
    by_cases hv : ∀ i ∈ itens, "alimento" ∈ i.keys ∧ "quantidade" ∈ i.keys ∧ "unidade" ∈ i.keys
    · rw [if_pos ((valida_itens_eq_true_iff itens).mpr hv), if_pos hv]
    · rw [if_neg (fun hb => hv ((valida_itens_eq_true_iff itens).mp hb)), if_neg hv]
  · rw [extrair_alimentos_da_frase, if_neg hf]

/-- Witness for the amended C5 at concrete inputs: one element with the three
keys and one element missing `unidade`. -/
theorem extrair_validacao_witness :
    ("um ovo" : String) ≠ "" ∧
    extrair_alimentos_da_frase "um ovo"
        (GeminiResult.payload (Json.arr [⟨["alimento", "quantidade", "unidade"], "ovo", 60, "grama"⟩])) =
      some [⟨["alimento", "quantidade", "unidade"], "ovo", 60, "grama"⟩] ∧
    extrair_alimentos_da_frase "um ovo"
        (GeminiResult.payload (Json.arr
          [⟨["alimento", "quantidade", "unidade"], "ovo", 60, "grama"⟩,
           ⟨["alimento", "quantidade"], "pao", 30, ""⟩])) = none := by
  refine ⟨by decide, ?_, ?_⟩
  · rw [(extrair_validacao "um ovo"
      [⟨["alimento", "quantidade", "unidade"], "ovo", 60, "grama"⟩] (by decide)).1]
    rw [if_pos (by decide)]
  · rw [(extrair_validacao "um ovo"
      [⟨["alimento", "quantidade", "unidade"], "ovo", 60, "grama"⟩,
       ⟨["alimento", "quantidade"], "pao", 30, ""⟩] (by decide)).1]
    rw [if_neg (by decide)]

/-- C8 counterexample: a JSON decode error, a non-array payload and an
upstream call error all make the interpreter return the very same value
(`none`), so the three failure conditions are not caller-distinguishable. -/
theorem extrair_falhas_indistinguiveis :
    extrair_alimentos_da_frase "uma maca" GeminiResult.parseError =
      extrair_alimentos_da_frase "uma maca" (GeminiResult.payload Json.notArr) ∧
    extrair_alimentos_da_frase "uma maca" GeminiResult.parseError =
      extrair_alimentos_da_frase "uma maca" GeminiResult.callError ∧
    extrair_alimentos_da_frase "uma maca" GeminiResult.parseError = none :=
  ⟨by decide, by decide, by decide⟩

/-- C8 (amended): the interpreter recognizes the three failure conditions
(malformed JSON, non-array payload, upstream call error) but collapses all
of them into the same opaque failure value `none`, and `registrar_refeicao`
surfaces each of them as the same HTTP 400 extraction error. -/
theorem extrair_falhas_todas_opacas (frase : String) (resultado : GeminiResult)
    (resolver : Item → Option Nutrientes)
    (h : resultado = GeminiResult.callError ∨ resultado = GeminiResult.parseError ∨
      resultado = GeminiResult.payload Json.notArr) :
    extrair_alimentos_da_frase frase resultado = none ∧
    registrar_refeicao frase resultado resolver = Except.error 400 := by
  have he : extrair_alimentos_da_frase frase resultado = none := by
    rcases h with h | h | h <;> subst h <;> simp [extrair_alimentos_da_frase]
  exact ⟨he, by rw [registrar_refeicao, he]⟩

/-- Witness for the amended C8 at a concrete input (a parse error). -/
theorem extrair_falhas_todas_opacas_witness :
    (GeminiResult.parseError = GeminiResult.callError ∨
     GeminiResult.parseError = GeminiResult.parseError ∨
     GeminiResult.parseError = GeminiResult.payload Json.notArr) ∧
    (extrair_alimentos_da_frase "pizza" GeminiResult.parseError = none ∧
     registrar_refeicao "pizza" GeminiResult.parseError (fun _ => none) = Except.error 400) :=
  ⟨Or.inr (Or.inl rfl),
   extrair_falhas_todas_opacas "pizza" GeminiResult.parseError (fun _ => none)
     (Or.inr (Or.inl rfl))⟩

/-- `if nutrientes:` for one item: the resolver returned a value and that
value is a non-empty dict (Python truthiness). -/
def resolvido (resolver : Item → Option Nutrientes) (item : Item) : Bool :=
  match resolver item with
  | some n => n.truthy
  | none => false

/-- The contribution `nutrientes.get(key, 0)` of one item's resolver result
to one of the four running sums. -/
def macro_item (resolver : Item → Option Nutrientes) (sel : Nutrientes → Option ℚ)
    (item : Item) : ℚ :=
  match resolver item with
  | some n => (sel n).getD 0
  | none => 0

/-- The aggregation loop is a fold whose final accumulator counts the items
with a truthy resolver result and sums their four `get(..., 0)` values. -/
theorem foldl_passo_item (resolver : Item → Option Nutrientes) (dados : List Item)
    (acc : Totais) :
    dados.foldl (passo_item resolver) acc =
      ⟨acc.itens_processados + (dados.filter (resolvido resolver)).length,
       acc.cal + ((dados.filter (resolvido resolver)).map
         (macro_item resolver Nutrientes.calorias)).sum,
       acc.prot + ((dados.filter (resolvido resolver)).map
         (macro_item resolver Nutrientes.proteinas)).sum,
       acc.gord + ((dados.filter (resolvido resolver)).map
         (macro_item resolver Nutrientes.gorduras)).sum,
       acc.carb + ((dados.filter (resolvido resolver)).map
         (macro_item resolver Nutrientes.carboidratos)).sum⟩ := by
  induction dados generalizing acc with
  | nil => simp
  | cons i resto ih =>
    rw [List.foldl_cons, ih]
    rcases hr : resolver i with _ | n
    · have hrb : resolvido resolver i = false := by simp [resolvido, hr]
      simp [passo_item, hr, List.filter_cons, hrb]
    · by_cases ht : n.truthy
      · have hrb : resolvido resolver i = true := by simp [resolvido, hr, ht]
        have hmc : macro_item resolver Nutrientes.calorias i = n.calorias.getD 0 := by
          simp [macro_item, hr]
        have hmp : macro_item resolver Nutrientes.proteinas i = n.proteinas.getD 0 := by
          simp [macro_item, hr]
        have hmg : macro_item resolver Nutrientes.gorduras i = n.gorduras.getD 0 := by
          simp [macro_item, hr]
        have hmb : macro_item resolver Nutrientes.carboidratos i = n.carboidratos.getD 0 := by
          simp [macro_item, hr]
        simp only [passo_item, hr, ht, if_true, List.filter_cons, hrb, List.length_cons,
          List.map_cons, List.sum_cons, hmc, hmp, hmg, hmb, Totais.mk.injEq]
        exact ⟨by omega, by ring, by ring, by ring, by ring⟩
      · have hrb : resolvido resolver i = false := by
          simp [resolvido, hr, Bool.of_not_eq_true ht]
        simp [passo_item, hr, ht, List.filter_cons, hrb]

/-- Concrete extracted item used by the C1 counterexample: 50 grams of tofu,
looked up in a record that reports none of the four macros, so the resolver
returns the empty dict `{}` — a non-`None` result. -/
def itemTofu : Item := ⟨["alimento", "quantidade", "unidade"], "tofu", 50, "grama"⟩

/-- C1 counterexample: the single extracted item resolves successfully in the
claim's sense (the resolver returns a value, not `None`: the empty vector,
because the matched record reports none of the four macros), so N = M = 1,
yet `registrar_refeicao` fails with 404 instead of succeeding — `if
nutrientes:` treats the empty dict like `None` and does not count the item. -/
theorem registrar_item_resolvido_vazio_falha :
    buscar_dados_nutricionais itemTofu (some [⟨"Tofu", []⟩]) = some Nutrientes.vazio ∧
    registrar_refeicao "50 gramas de tofu" (GeminiResult.payload (Json.arr [itemTofu]))
      (fun i => buscar_dados_nutricionais i (some [⟨"Tofu", []⟩])) = Except.error 404 :=
  ⟨by decide, by decide⟩

/-- C1 (amended): when interpretation succeeds and M ≥ 1 of the extracted
items resolve to a NON-EMPTY macro vector (the code's `itens_processados`
criterion: `if nutrientes:` is false for both `None` and the empty dict),
registration succeeds and each of the four reported totals is the sum of
exactly those M items' resolver vectors (reading absent macros as 0),
rounded to 2 decimal places; items that resolve to `None` or to an empty
vector contribute nothing. -/
theorem registrar_totais_resolvidos (frase : String) (resultado : GeminiResult)
    (resolver : Item → Option Nutrientes) (dados : List Item)
    (hd : extrair_alimentos_da_frase frase resultado = some dados)
    (hM : 0 < (dados.filter (resolvido resolver)).length) :
    registrar_refeicao frase resultado resolver =
      Except.ok
        ⟨round2 (((dados.filter (resolvido resolver)).map
            (macro_item resolver Nutrientes.calorias)).sum),
         round2 (((dados.filter (resolvido resolver)).map
            (macro_item resolver Nutrientes.proteinas)).sum),
         round2 (((dados.filter (resolvido resolver)).map
            (macro_item resolver Nutrientes.gorduras)).sum),
         round2 (((dados.filter (resolvido resolver)).map
            (macro_item resolver Nutrientes.carboidratos)).sum)⟩ := by
  have hne : dados ≠ [] := by
    intro h
    subst h
    simp at hM
  rw [registrar_refeicao, hd]
  simp only [if_neg hne, foldl_passo_item, Totais.zero]
  have hcount : ¬ (0 + (dados.filter (resolvido resolver)).length = 0) := by omega
  simp only [if_neg hcount]
  norm_num

/-- Witness for the amended C1 at a concrete input: one item, 50 grams of
rice against a record with base-100g values (130, 3, 1, 28), totals
(65, 1.5, 0.5, 14). -/
theorem registrar_totais_resolvidos_witness :
    extrair_alimentos_da_frase "50 gramas de arroz"
        (GeminiResult.payload (Json.arr [itemArroz])) = some [itemArroz] ∧
    0 < ([itemArroz].filter
        (resolvido (fun i => buscar_dados_nutricionais i (some [recordArroz])))).length ∧
    registrar_refeicao "50 gramas de arroz" (GeminiResult.payload (Json.arr [itemArroz]))
        (fun i => buscar_dados_nutricionais i (some [recordArroz])) =
      Except.ok ⟨65, 3 / 2, 1 / 2, 14⟩ := by
  have hb : buscar_dados_nutricionais itemArroz (some [recordArroz]) =
      some ⟨some 65, some (3 / 2), some (1 / 2), some 14⟩ := by
    rw [buscar_dados_nutricionais,
      if_neg (not_not_intro (by decide : itemArroz.campos_validos))]
    have hbase : valores_base_100g recordArroz.foodNutrients =
        ⟨some 130, some 3, some 1, some 28⟩ := by decide
    have hq : itemArroz.quantidade = 50 := rfl
    have hu : itemArroz.unidade = "grama" := rfl
    simp only [hbase, hq, hu, if_pos rfl]
    norm_num [Nutrientes.escala, round2, round_eq]
  refine ⟨by decide, ?_, ?_⟩
  · simp [List.filter_cons, resolvido, hb, Nutrientes.truthy]
  · rw [registrar_totais_resolvidos _ _ _ [itemArroz] (by decide)
      (by simp [List.filter_cons, resolvido, hb, Nutrientes.truthy])]
    have hfil : [itemArroz].filter
        (resolvido (fun i => buscar_dados_nutricionais i (some [recordArroz]))) =
        [itemArroz] := by
      simp [List.filter_cons, resolvido, hb, Nutrientes.truthy]
    rw [hfil]
    simp only [List.map_cons, List.map_nil, List.sum_cons, List.sum_nil, macro_item, hb]
    norm_num [round2, round_eq]

/-- C3 counterexample: an empty extracted array is a successful
interpretation (the interpreter returns a list) for which zero items
resolve, yet registration fails with the HTTP 400 extraction error (`if
not dados_alimentos:` also catches the empty list), not the claimed 404. -/
theorem registrar_lista_vazia_da_400 :
    extrair_alimentos_da_frase "agua" (GeminiResult.payload (Json.arr [])) = some [] ∧
    registrar_refeicao "agua" (GeminiResult.payload (Json.arr [])) (fun _ => none) =
      Except.error 400 :=
  ⟨by decide, by decide⟩

/-- C3 (amended): when interpretation succeeds with at least one extracted
item and zero items resolve to a non-empty vector (`itens_processados == 0`
after processing all items), registration fails with the HTTP 404
`no_items_resolved` error and no meal record is persisted. -/
theorem registrar_nenhum_resolvido (frase : String) (resultado : GeminiResult)
    (resolver : Item → Option Nutrientes) (dados : List Item)
    (hd : extrair_alimentos_da_frase frase resultado = some dados)
    (hne : dados ≠ [])
    (h0 : (dados.filter (resolvido resolver)).length = 0) :
    registrar_refeicao frase resultado resolver = Except.error 404 := by
  rw [registrar_refeicao, hd]
  simp only [if_neg hne, foldl_passo_item, Totais.zero]
  simp [h0]

/-- Witness for the amended C3 at a concrete input: one item whose every
lookup fails (`None`). -/
theorem registrar_nenhum_resolvido_witness :
    extrair_alimentos_da_frase "pao integral"
        (GeminiResult.payload (Json.arr [⟨["alimento", "quantidade", "unidade"], "pao", 30, "grama"⟩])) =
      some [⟨["alimento", "quantidade", "unidade"], "pao", 30, "grama"⟩] ∧
    ([⟨["alimento", "quantidade", "unidade"], "pao", 30, "grama"⟩] : List Item) ≠ [] ∧
    registrar_refeicao "pao integral"
        (GeminiResult.payload (Json.arr [⟨["alimento", "quantidade", "unidade"], "pao", 30, "grama"⟩]))
        (fun _ => none) = Except.error 404 :=
  ⟨by decide, by decide,
   registrar_nenhum_resolvido "pao integral" _ (fun _ => none)
     [⟨["alimento", "quantidade", "unidade"], "pao", 30, "grama"⟩]
     (by decide) (by decide) (by decide)⟩

theorem soma_sql_getD (l : List ℚ) : (soma_sql l).getD 0 = l.sum := by
  by_cases h : l = [] <;> simp [soma_sql, h]

/-- C4 counterexample: a user whose calorie target is 100.126 (more than two
decimal places) and who has no meals gets `calorias_restantes = 100.13`,
the rounded target, which differs from the target itself — so the claim
that `calories_remaining` equals the calorie target for every user with no
meals that day is false on the code.  The input 100.126 is not a rounding
tie (10012.6 is 0.4 away from the nearest half-integer boundary), so every
round-to-nearest convention — Python's half-to-even included — yields
100.13 here. -/
theorem resumo_meta_nao_representavel :
    (get_resumo_do_dia (50063 / 500) [] 0).calorias_restantes = 10013 / 100 ∧
    (10013 / 100 : ℚ) ≠ 50063 / 500 := by
  constructor
  · rw [get_resumo_do_dia]
    norm_num [refeicoes_do_dia, soma_sql, round2, round_eq]
  · norm_num

/-- C4 (amended): the summary always returns
`calorias_restantes = round2 (meta - total)` computed from the unrounded
day total — it may be negative and is not clamped — and over a day with no
meals the four totals are 0 (never absent) and `calorias_restantes` equals
the calorie target rounded to 2 decimal places (hence equals the target
itself whenever the target has at most two decimals); the four totals and
the remainder are rounded to 2 decimal places (the echoed target is not). -/
theorem resumo_do_dia_totais (meta : ℚ) (refs : List Refeicao) (inicio : ℤ) :
    get_resumo_do_dia meta refs inicio =
      ⟨meta,
       round2 (((refeicoes_do_dia refs inicio).map Refeicao.total_calorias).sum),
       round2 (((refeicoes_do_dia refs inicio).map Refeicao.total_proteinas).sum),
       round2 (((refeicoes_do_dia refs inicio).map Refeicao.total_gorduras).sum),
       round2 (((refeicoes_do_dia refs inicio).map Refeicao.total_carboidratos).sum),
       round2 (meta - ((refeicoes_do_dia refs inicio).map Refeicao.total_calorias).sum)⟩ ∧
    (refeicoes_do_dia refs inicio = [] →
      get_resumo_do_dia meta refs inicio = ⟨meta, 0, 0, 0, 0, round2 meta⟩) := by
  have hg : get_resumo_do_dia meta refs inicio =
      ⟨meta,
       round2 (((refeicoes_do_dia refs inicio).map Refeicao.total_calorias).sum),
       round2 (((refeicoes_do_dia refs inicio).map Refeicao.total_proteinas).sum),
       round2 (((refeicoes_do_dia refs inicio).map Refeicao.total_gorduras).sum),
       round2 (((refeicoes_do_dia refs inicio).map Refeicao.total_carboidratos).sum),
       round2 (meta - ((refeicoes_do_dia refs inicio).map Refeicao.total_calorias).sum)⟩ := by
    rw [get_resumo_do_dia]
    simp [soma_sql_getD]
  refine ⟨hg, fun h => ?_⟩
  rw [hg, h]
  simp [round2]

/-- Witness for the amended C4: target 2000, no meals at all. -/
theorem resumo_do_dia_totais_witness :
    refeicoes_do_dia [] 0 = [] ∧
    get_resumo_do_dia 2000 [] 0 = ⟨2000, 0, 0, 0, 0, 2000⟩ := by
  refine ⟨rfl, ?_⟩
  rw [(resumo_do_dia_totais 2000 [] 0).2 rfl]
  norm_num [ResumoDiaOutput.mk.injEq, round2, round_eq]

/-- C9: the summary sums exactly the user's meals with timestamp in the
half-open UTC interval `[inicio, inicio + 86400)`: a meal timestamped
inside the interval is counted in the day total, while a meal timestamped
at or after the following day's start leaves the whole summary unchanged. -/
theorem resumo_intervalo_meio_aberto (meta : ℚ) (inicio : ℤ) (m seguinte : Refeicao)
    (resto : List Refeicao)
    (hm : inicio ≤ m.data ∧ m.data < inicio + 86400)
    (hs : inicio + 86400 ≤ seguinte.data) :
    get_resumo_do_dia meta (m :: seguinte :: resto) inicio =
      get_resumo_do_dia meta (m :: resto) inicio ∧
    (get_resumo_do_dia meta (m :: resto) inicio).total_calorias =
      round2 (m.total_calorias +
        ((refeicoes_do_dia resto inicio).map Refeicao.total_calorias).sum) := by
  have hns : ¬ (inicio ≤ seguinte.data ∧ seguinte.data < inicio + 86400) := by
    intro hc
    omega
  have hfil : refeicoes_do_dia (m :: seguinte :: resto) inicio =
      refeicoes_do_dia (m :: resto) inicio := by
    unfold refeicoes_do_dia
    simp [List.filter_cons, hm.1, hm.2, hns]
  constructor
  · unfold get_resumo_do_dia
    rw [hfil]
  · rw [get_resumo_do_dia]
    have hcons : refeicoes_do_dia (m :: resto) inicio = m :: refeicoes_do_dia resto inicio := by
      unfold refeicoes_do_dia
      simp [List.filter_cons, hm.1, hm.2]
    simp [hcons, soma_sql]

/-- Witness for C9: meals of 500 and 300 kcal inside the day give a total of
800; a 999 kcal meal timestamped exactly at the next day's start (86400) is
excluded. -/
theorem resumo_intervalo_meio_aberto_witness :
    ((0 : ℤ) ≤ 100 ∧ (100 : ℤ) < 0 + 86400) ∧ ((0 : ℤ) + 86400 ≤ 86400) ∧
    get_resumo_do_dia 2000
        [⟨100, 500, 0, 0, 0⟩, ⟨86400, 999, 0, 0, 0⟩, ⟨200, 300, 0, 0, 0⟩] 0 =
      get_resumo_do_dia 2000 [⟨100, 500, 0, 0, 0⟩, ⟨200, 300, 0, 0, 0⟩] 0 ∧
    (get_resumo_do_dia 2000 [⟨100, 500, 0, 0, 0⟩, ⟨200, 300, 0, 0, 0⟩] 0).total_calorias =
      800 := by
  have h := resumo_intervalo_meio_aberto 2000 0 ⟨100, 500, 0, 0, 0⟩ ⟨86400, 999, 0, 0, 0⟩
    [⟨200, 300, 0, 0, 0⟩] ⟨by decide, by decide⟩ (by decide)
  refine ⟨⟨by decide, by decide⟩, by decide, h.1, ?_⟩
  rw [h.2]
  norm_num [refeicoes_do_dia, round2, round_eq]

end AppNutri
